import Mathlib

/-
  Verification of the IWM-5-VWAP overnight-bias / confirmation / invalidation
  pipeline.  Shallow embedding of the relevant Python classes:

  * `OvernightBiasStrategy._determine_overnight_bias`   (overnight_bias_strategy.py)
  * `OvernightBiasStrategy.calculate_position_size`     (overnight_bias_strategy.py)
  * `FiveMinuteConfirmation._process_five_minute_close` (five_minute_confirmation.py)
  * `FiveMinuteConfirmation._check_retest_opportunity`  (five_minute_confirmation.py)
  * `HardInvalidation._process_five_minute_close`       (hard_invalidation.py)
  * `IWM5VWAPExitMonitor.should_exit`                   (exit_monitor.py)
  * `should_force_exit`                                 (utils.py)

  Prices and dollar amounts are modelled as exact rationals, Python `int()`
  as truncation toward zero, fallible code (ZeroDivisionError / TypeError)
  as `Except`.
-/

namespace IWM

/-- Python `int(q)` on a float/rational: truncation toward zero. -/
def pyInt (q : ℚ) : ℤ := if 0 ≤ q then ⌊q⌋ else ⌈q⌉

/-- Evaluation rule for `pyInt` on non-negative values. -/
lemma pyInt_eq_of_nonneg (q : ℚ) (n : ℤ) (hn : 0 ≤ n) (h1 : (n:ℚ) ≤ q) (h2 : q < n + 1) :
    pyInt q = n := by
  have h0 : (0:ℚ) ≤ q := le_trans (by exact_mod_cast hn) h1
  unfold pyInt
  rw [if_pos h0]
  exact Int.floor_eq_iff.mpr ⟨h1, h2⟩

/-! ## Position sizing (`OvernightBiasStrategy.calculate_position_size`) -/

namespace OvernightBiasStrategy

/-- `self.max_daily_loss = -700.0` set in `__init__`. -/
def max_daily_loss : ℚ := -700

/-- `self.position_sizes['initial'] = 0.33` set in `__init__`. -/
def position_size_initial : ℚ := 33 / 100

/-- Result dict of `calculate_position_size`: either
`{'status': 'rejected', 'reason': ...}` or
`{'status': 'approved', 'num_contracts', 'position_value', 'risk_amount',
'available_capital'}`. -/
inductive SizeOutcome where
  | rejected (reason : String)
  | approved (num_contracts : ℤ) (position_value risk_amount available_capital : ℚ)
deriving DecidableEq, Repr

/-- `OvernightBiasStrategy.calculate_position_size(option_price, account_balance)`
with the instance state `self.daily_pnl` passed explicitly.  A Python
`ZeroDivisionError` (division by a zero `option_price`) is modelled as
`Except.error`. -/
def calculate_position_size (daily_pnl option_price account_balance : ℚ) :
    Except String SizeOutcome :=
  if daily_pnl ≤ max_daily_loss then
    .ok (.rejected "Daily loss limit reached")
  else
    let available_capital := account_balance + daily_pnl
    let position_value := available_capital * position_size_initial
    if option_price = 0 then
      .error "ZeroDivisionError"
    else
      let num_contracts := pyInt (position_value / option_price)
      if num_contracts < 1 then
        .ok (.rejected "Insufficient capital for position")
      else
        let risk_per_trade := min (account_balance * (3 / 100)) (account_balance * (15 / 1000))
        let max_contracts_by_risk := pyInt (risk_per_trade / option_price)
        let final_contracts := min num_contracts max_contracts_by_risk
        .ok (.approved final_contracts (final_contracts * option_price)
              (final_contracts * option_price) available_capital)

/-- Projection: the approved contract count of a sizing result, when any. -/
def approvedContracts : Except String SizeOutcome → Option ℤ
  | .ok (.approved n _ _ _) => some n
  | _ => none

/-- Does the call return a result dict (as opposed to raising)? -/
def returnsResult : Except String SizeOutcome → Bool
  | .ok _ => true
  | .error _ => false

end OvernightBiasStrategy

/-! ## Overnight bias classifier (`OvernightBiasStrategy._determine_overnight_bias`) -/

namespace OvernightBiasStrategy

/-- A bar dict `{open, high, low, close, volume}` (timestamps are irrelevant
to the classifier's branching and omitted). -/
structure Bar where
  open_ : ℚ
  high : ℚ
  low : ℚ
  close : ℚ
  volume : ℚ
deriving DecidableEq, Repr, Inhabited

/-- Result dict of `_determine_overnight_bias`:
`{'bias': 'calls' | 'puts' | None, 'confidence': float, 'bar_type': str}`. -/
structure BiasResult where
  bias : Option String
  confidence : ℚ
  bar_type : String
deriving DecidableEq, Repr

/-- `OvernightBiasStrategy._determine_overnight_bias(bar_data)`.
`overnight_bars` models `self.overnight_bars` *after* `update_overnight_bar`
has appended the current bar (the caller appends before this method runs);
the previous bar is `self.overnight_bars[-2]`. -/
def determine_overnight_bias (overnight_bars : List Bar) (bar_data : Bar) : BiasResult :=
  if overnight_bars.length < 2 then
    { bias := none, confidence := 0, bar_type := "first" }
  else
    let previous_bar := overnight_bars.getD (overnight_bars.length - 2) default
    let current_high := bar_data.high
    let current_low := bar_data.low
    let current_close := bar_data.close
    let prev_high := previous_bar.high
    let prev_low := previous_bar.low
    if current_high ≤ prev_high ∧ current_low ≥ prev_low then
      { bias := none, confidence := 0, bar_type := "1" }
    else if current_close > prev_high then
      { bias := some "calls",
        confidence := min (7/10 + (|current_close - prev_high| / prev_high) * 10) 1,
        bar_type := "2-up" }
    else if current_close < prev_low then
      { bias := some "puts",
        confidence := min (7/10 + (|prev_low - current_close| / prev_low) * 10) 1,
        bar_type := "2-down" }
    else
      { bias := none, confidence := 0, bar_type := "1" }

end OvernightBiasStrategy

/-! ## Five-minute confirmation machine (`five_minute_confirmation.py`) -/

namespace FiveMinuteConfirmation

/-- A 5-minute candle dict built by `_update_current_candle`:
`{timestamp, open, high, low, close, volume}`.  The `vwap` field models an
*optional* dict key: `_update_current_candle` never writes it, so reads go
through `.get('vwap', 0)` (see `candle_vwap`). -/
structure Candle where
  timestamp : ℚ
  open_ : ℚ
  high : ℚ
  low : ℚ
  close : ℚ
  volume : ℚ
  vwap : Option ℚ := none
deriving DecidableEq, Repr

/-- Python `candle.get('vwap', 0)`. -/
def candle_vwap (c : Candle) : ℚ := c.vwap.getD 0

/-- Mutable state of a `FiveMinuteConfirmation` instance (the fields the
close/retest logic reads and writes). -/
structure State where
  trigger_high : Option ℚ
  trigger_low : Option ℚ
  confirmation_pending : Bool
  confirmation_bias : Option String
  confirmation_trigger : Option ℚ
  retest_count : ℕ
  max_retests : ℕ
  current_candle : Option Candle
  five_min_candles : List Candle
deriving DecidableEq, Repr

/-- Fresh instance state from `__init__` (`max_retests = 2`). -/
def initState : State :=
  { trigger_high := none, trigger_low := none, confirmation_pending := false,
    confirmation_bias := none, confirmation_trigger := none,
    retest_count := 0, max_retests := 2, current_candle := none,
    five_min_candles := [] }

/-- Result dict of `_check_trigger_break`: `{'broken': bool, 'trigger_level': ...}`. -/
structure TriggerBreak where
  broken : Bool
  trigger_level : Option ℚ
deriving DecidableEq, Repr

/-- `FiveMinuteConfirmation._check_trigger_break(candle, bias)`. -/
def check_trigger_break (s : State) (candle : Candle) (bias : String) : TriggerBreak :=
  if bias = "calls" ∧ s.trigger_high.isSome then
    match s.trigger_high with
    | some th => if candle.close > th then ⟨true, some th⟩ else ⟨false, none⟩
    | none => ⟨false, none⟩
  else if bias = "puts" ∧ s.trigger_low.isSome then
    match s.trigger_low with
    | some tl => if candle.close < tl then ⟨true, some tl⟩ else ⟨false, none⟩
    | none => ⟨false, none⟩
  else ⟨false, none⟩

/-- `FiveMinuteConfirmation._check_confirmation(candle, bias)`.
Python compares `candle['close'] > self.confirmation_trigger`; a `None`
trigger would raise `TypeError`, modelled as `Except.error`.  The second
comparand is `self.current_candle.get('vwap', 0)`, passed in as
`cur_vwap` (it is `0` in every reachable state: no code writes a `'vwap'`
key into the candle dict). -/
def check_confirmation (trig : Option ℚ) (cur_vwap : ℚ) (candle : Candle)
    (bias : String) : Except String Bool :=
  if bias = "calls" then
    match trig with
    | some t => .ok (candle.close > t ∧ candle.close > cur_vwap : Bool)
    | none => .error "TypeError"
  else if bias = "puts" then
    match trig with
    | some t => .ok (candle.close < t ∧ candle.close < cur_vwap : Bool)
    | none => .error "TypeError"
  else .ok false

/-- Status dict returned by `_process_five_minute_close`. -/
inductive CloseStatus where
  | no_candle (bias : String)
  | trigger_break (bias : String) (trigger_level : Option ℚ) (candle_close : ℚ)
  | confirmed (bias : String) (candle_close : ℚ)
  | no_trigger (bias : String)
deriving DecidableEq, Repr

/-- `FiveMinuteConfirmation._process_five_minute_close(bias)`.
`now` models `time.time()` (the timestamp stamped onto the stored copy of
the candle).  Returns the updated instance state with the status dict. -/
def process_five_minute_close (s : State) (bias : String) (now : ℚ) :
    Except String (State × CloseStatus) :=
  match s.current_candle with
  | none => .ok (s, .no_candle bias)
  | some c =>
    let candle : Candle := { c with timestamp := now }
    let s := { s with five_min_candles := s.five_min_candles ++ [candle] }
    let tb := check_trigger_break s candle bias
    if tb.broken then
      .ok ({ s with confirmation_pending := true,
                    confirmation_bias := some bias,
                    confirmation_trigger := tb.trigger_level },
           .trigger_break bias tb.trigger_level candle.close)
    else if s.confirmation_pending ∧ s.confirmation_bias = some bias then
      match check_confirmation s.confirmation_trigger (candle_vwap c) candle bias with
      | .error e => .error e
      | .ok confirmed =>
        if confirmed then
          .ok ({ s with confirmation_pending := false,
                        confirmation_bias := none,
                        confirmation_trigger := none,
                        retest_count := 0 },
               .confirmed bias candle.close)
        else
          .ok ({ s with current_candle := none }, .no_trigger bias)
    else
      .ok ({ s with current_candle := none }, .no_trigger bias)

/-- Status dict returned by `_check_retest_opportunity`. -/
inductive RetestStatus where
  | max_retests (bias : String)
  | retest_opportunity (bias : String) (retest_count : ℕ) (price : ℚ)
  | waiting_retest (bias : String)
deriving DecidableEq, Repr

/-- `FiveMinuteConfirmation._check_retest_opportunity(tick_data, bias)`
(`price` is `tick_data['price']`). -/
def check_retest_opportunity (s : State) (price : ℚ) (bias : String) :
    State × RetestStatus :=
  if s.retest_count ≥ s.max_retests then
    ({ s with confirmation_pending := false, confirmation_bias := none,
              confirmation_trigger := none, retest_count := 0 },
     .max_retests bias)
  else if bias = "calls" ∧ s.confirmation_trigger.isSome then
    match s.confirmation_trigger with
    | some t =>
      if price ≤ t * (1001/1000) ∧ price ≥ t * (999/1000) then
        ({ s with retest_count := s.retest_count + 1 },
         .retest_opportunity bias (s.retest_count + 1) price)
      else (s, .waiting_retest bias)
    | none => (s, .waiting_retest bias)
  else if bias = "puts" ∧ s.confirmation_trigger.isSome then
    match s.confirmation_trigger with
    | some t =>
      if price ≥ t * (999/1000) ∧ price ≤ t * (1001/1000) then
        ({ s with retest_count := s.retest_count + 1 },
         .retest_opportunity bias (s.retest_count + 1) price)
      else (s, .waiting_retest bias)
    | none => (s, .waiting_retest bias)
  else (s, .waiting_retest bias)

end FiveMinuteConfirmation

/-! ## Hard invalidation (`hard_invalidation.py`) -/

namespace HardInvalidation

/-- `self.max_consecutive_closes = 2` (two consecutive closes back inside). -/
def max_consecutive_closes : ℕ := 2

/-- `self.vwap_invalidation_closes = 1` (one close across VWAP). -/
def vwap_invalidation_closes : ℕ := 1

/-- Mutable state of a `HardInvalidation` instance: the two adverse-streak
counters, the current session VWAP, and the tracked positions (by bias). -/
structure State where
  consecutive_closes_inside : ℕ
  consecutive_closes_across_vwap : ℕ
  current_vwap : ℚ
  active_positions : List String
deriving DecidableEq, Repr

/-- Fresh instance state from `__init__`. -/
def initState : State :=
  { consecutive_closes_inside := 0, consecutive_closes_across_vwap := 0,
    current_vwap := 0, active_positions := [] }

/-- The invalidation reason strings (each carries the formatted level). -/
inductive Reason where
  | twoConsecutiveClosesInsideTrigger (trigger_level : ℚ)
  | closeBelowVWAP (vwap : ℚ)
  | closeAboveVWAP (vwap : ℚ)
deriving DecidableEq, Repr

/-- `HardInvalidation._check_trigger_invalidation(bias, current_price,
trigger_high, trigger_low)`: returns the updated state and, when
invalidated, the reason. -/
def check_trigger_invalidation (s : State) (bias : String)
    (current_price trigger_high trigger_low : ℚ) : State × Option Reason :=
  if bias = "calls" then
    if current_price ≤ trigger_high then
      let s := { s with consecutive_closes_inside := s.consecutive_closes_inside + 1,
                        consecutive_closes_across_vwap := 0 }
      if s.consecutive_closes_inside ≥ max_consecutive_closes then
        (s, some (.twoConsecutiveClosesInsideTrigger trigger_high))
      else (s, none)
    else ({ s with consecutive_closes_inside := 0 }, none)
  else if bias = "puts" then
    if current_price ≥ trigger_low then
      let s := { s with consecutive_closes_inside := s.consecutive_closes_inside + 1,
                        consecutive_closes_across_vwap := 0 }
      if s.consecutive_closes_inside ≥ max_consecutive_closes then
        (s, some (.twoConsecutiveClosesInsideTrigger trigger_low))
      else (s, none)
    else ({ s with consecutive_closes_inside := 0 }, none)
  else (s, none)

/-- `HardInvalidation._check_vwap_invalidation(bias, current_price)`. -/
def check_vwap_invalidation (s : State) (bias : String) (current_price : ℚ) :
    State × Option Reason :=
  if s.current_vwap = 0 then (s, none)
  else if bias = "calls" then
    if current_price < s.current_vwap then
      let s := { s with consecutive_closes_across_vwap := s.consecutive_closes_across_vwap + 1,
                        consecutive_closes_inside := 0 }
      if s.consecutive_closes_across_vwap ≥ vwap_invalidation_closes then
        (s, some (.closeBelowVWAP s.current_vwap))
      else (s, none)
    else ({ s with consecutive_closes_across_vwap := 0 }, none)
  else if bias = "puts" then
    if current_price > s.current_vwap then
      let s := { s with consecutive_closes_across_vwap := s.consecutive_closes_across_vwap + 1,
                        consecutive_closes_inside := 0 }
      if s.consecutive_closes_across_vwap ≥ vwap_invalidation_closes then
        (s, some (.closeAboveVWAP s.current_vwap))
      else (s, none)
    else ({ s with consecutive_closes_across_vwap := 0 }, none)
  else (s, none)

/-- Status dict returned by `HardInvalidation._process_five_minute_close`:
both invalidation statuses carry `'action': 'close_position'`. -/
inductive CloseStatus where
  | hard_invalidation (reason : Reason) (consecutive_closes : ℕ)
  | vwap_invalidation (reason : Reason) (consecutive_closes : ℕ)
  | valid (consecutive_closes : ℕ)
deriving DecidableEq, Repr

/-- Does the status dict carry `'action': 'close_position'`? -/
def isExitStatus : CloseStatus → Bool
  | .hard_invalidation _ _ => true
  | .vwap_invalidation _ _ => true
  | .valid _ => false

/-- Is the status a VWAP invalidation (reason "close across VWAP")? -/
def isVwapExit : CloseStatus → Bool
  | .vwap_invalidation _ _ => true
  | _ => false

/-- `HardInvalidation._process_five_minute_close(position_data, current_price,
trigger_levels)`: trigger-range invalidation is checked first, then VWAP
invalidation (`bias` is `position_data.get('bias', '')`). -/
def process_five_minute_close (s : State) (bias : String)
    (current_price trigger_high trigger_low : ℚ) : State × CloseStatus :=
  let tr := check_trigger_invalidation s bias current_price trigger_high trigger_low
  match tr with
  | (s1, some reason) =>
    (s1, .hard_invalidation reason s1.consecutive_closes_inside)
  | (s1, none) =>
    let vr := check_vwap_invalidation s1 bias current_price
    match vr with
    | (s2, some reason) =>
      (s2, .vwap_invalidation reason s2.consecutive_closes_across_vwap)
    | (s2, none) =>
      (s2, .valid s2.consecutive_closes_inside)

/-- Status of `_check_real_time_invalidation` (pure: it never touches the
counters or any other instance field). -/
inductive RealTimeStatus where
  | extreme_move_below_low (trigger_low : ℚ) : RealTimeStatus
  | extreme_move_above_high (trigger_high : ℚ) : RealTimeStatus
  | valid : RealTimeStatus
deriving DecidableEq, Repr

/-- `HardInvalidation._check_real_time_invalidation(position_data,
current_price, trigger_levels)`: reads only its arguments, writes nothing. -/
def check_real_time_invalidation (bias : String)
    (current_price trigger_high trigger_low : ℚ) : RealTimeStatus :=
  if bias = "calls" ∧ current_price < trigger_low then
    .extreme_move_below_low trigger_low
  else if bias = "puts" ∧ current_price > trigger_high then
    .extreme_move_above_high trigger_high
  else .valid

/-- `HardInvalidation.add_position(position_data)`: appends the position and
resets both counters to 0. -/
def add_position (s : State) (bias : String) : State :=
  { s with active_positions := s.active_positions ++ [bias],
           consecutive_closes_inside := 0,
           consecutive_closes_across_vwap := 0 }

/-- `HardInvalidation.reset_counters()`. -/
def reset_counters (s : State) : State :=
  { s with consecutive_closes_inside := 0,
           consecutive_closes_across_vwap := 0 }

/-- The mutual-exclusion invariant: at most one of the two adverse-streak
counters is non-zero. -/
def countersMutex (s : State) : Prop :=
  s.consecutive_closes_inside = 0 ∨ s.consecutive_closes_across_vwap = 0

instance (s : State) : Decidable (countersMutex s) := by
  unfold countersMutex
  infer_instance

end HardInvalidation

/-! ## Time stop and exit monitor (`utils.py`, `exit_monitor.py`) -/

/-- `Config.HARD_TIME_STOP = '15:55'`, as seconds since midnight ET. -/
def HARD_TIME_STOP_seconds : ℕ := 15 * 3600 + 55 * 60

/-- `utils.should_force_exit()`: `now.time() >= time(15, 55)`, with the
current ET time-of-day passed explicitly as seconds since midnight. -/
def should_force_exit (now_seconds : ℕ) : Bool :=
  now_seconds ≥ HARD_TIME_STOP_seconds

namespace IWM5VWAPExitMonitor

/-- The fields of `position_data` read by `should_exit`. -/
structure PositionData where
  entry_price : ℚ
  peak_price : ℚ
deriving DecidableEq, Repr

/-- The fields of `market_data` read by `should_exit`
(`.get(..., 0)` defaults applied by the caller of this embedding). -/
structure MarketData where
  current_price : ℚ
  vwap_1min : ℚ
deriving DecidableEq, Repr

/-- The exit reason strings of `_get_exit_reason` (with their payloads). -/
inductive ExitReason where
  | maxGiveback (pnl_pct : ℚ)
  | tightenGiveback (pnl_pct : ℚ)
  | vwapExit (current_price vwap : ℚ)
  | timeStop
deriving DecidableEq, Repr

/-- `IWM5VWAPExitMonitor._check_vwap_exit_blocks(market_data)`: stubbed to
`False` in the source ("requires more complex tracking"). -/
def check_vwap_exit_blocks : Bool := false

/-- `IWM5VWAPExitMonitor.should_exit(position_data, market_data)`.
`max_giveback_pct` / `tighten_giveback_pct` are the configured percentages;
`now_seconds` is the ET time-of-day consulted by the time-stop check.  The
`exit_conditions` dict is iterated in insertion order
(max_giveback, tighten_giveback, vwap_exit, time_stop). -/
def should_exit (max_giveback_pct tighten_giveback_pct : ℚ) (now_seconds : ℕ)
    (position_data : Option PositionData) (market_data : MarketData) :
    Bool × Option ExitReason :=
  match position_data with
  | none => (false, none)
  | some pd =>
    let current_price := market_data.current_price
    let vwap := market_data.vwap_1min
    let entry_price := pd.entry_price
    if entry_price = 0 ∨ current_price = 0 then (false, none)
    else
      let pnl_pct := ((current_price - entry_price) / entry_price) * 100
      if pnl_pct ≤ -max_giveback_pct then
        (true, some (.maxGiveback pnl_pct))
      else if pnl_pct ≤ -tighten_giveback_pct ∧ current_price < vwap then
        (true, some (.tightenGiveback pnl_pct))
      else if check_vwap_exit_blocks then
        (true, some (.vwapExit current_price vwap))
      else if should_force_exit now_seconds then
        (true, some .timeStop)
      else (false, none)

end IWM5VWAPExitMonitor

/-! ## Theorems: position sizing (C2, C3, C10) -/

namespace OvernightBiasStrategy

/-- C2 counterexample: at account balance 100 and option price 2.50 with zero
daily P&L, `calculate_position_size` returns status `approved` with
`num_contracts = 0`, which is below 1 — refuting the claim that an approved
result always carries at least one contract. -/
theorem sizing_approves_zero_contracts :
    approvedContracts (calculate_position_size 0 (5/2) 100) = some 0 ∧
    ¬ (1 ≤ (0 : ℤ)) := by
  have h13 : pyInt ((100 + (0:ℚ)) * position_size_initial / (5/2)) = 13 :=
    pyInt_eq_of_nonneg _ 13 (by norm_num)
      (by norm_num [position_size_initial]) (by norm_num [position_size_initial])
  have hr : pyInt (min ((100:ℚ) * (3/100)) (100 * (15/1000)) / (5/2)) = 0 :=
    pyInt_eq_of_nonneg _ 0 (by norm_num) (by norm_num) (by norm_num)
  refine ⟨?_, by decide⟩
  have hcalc : calculate_position_size 0 (5/2) 100 = .ok (.approved 0 0 0 100) := by
    simp only [calculate_position_size, h13, hr]
    norm_num [max_daily_loss]
  rw [hcalc]
  rfl

/-- C2 (amended): whenever `calculate_position_size` returns `approved`, the
capital-based contract count is at least 1 and the returned count equals
`min(capital-based contracts, risk-based contracts)`; the returned count
itself can be below 1 because the `< 1` rejection is checked before the risk
cap is applied. -/
theorem approved_count_is_min_of_caps (daily_pnl option_price account_balance : ℚ)
    (n : ℤ) (pv ra ac : ℚ)
    (h : calculate_position_size daily_pnl option_price account_balance =
      .ok (.approved n pv ra ac)) :
    1 ≤ pyInt ((account_balance + daily_pnl) * position_size_initial / option_price) ∧
    n = min (pyInt ((account_balance + daily_pnl) * position_size_initial / option_price))
        (pyInt (min (account_balance * (3/100)) (account_balance * (15/1000)) / option_price)) := by
  simp only [calculate_position_size] at h
  split at h
  · exact absurd h (by simp)
  · split at h
    · exact absurd h (by simp)
    · split at h
      · exact absurd h (by simp)
      · rename_i hnc
        rw [not_lt] at hnc
        simp only [Except.ok.injEq, SizeOutcome.approved.injEq] at h
        exact ⟨hnc, h.1.symm⟩

/-- Witness for `approved_count_is_min_of_caps` at the C2 counterexample
input (balance 100, price 2.50): the approved count 0 is the minimum of the
capital-based count 13 and the risk-based count 0. -/
theorem approved_count_is_min_of_caps_w :
    1 ≤ pyInt ((100 + 0) * position_size_initial / (5/2)) ∧
    (0 : ℤ) = min (pyInt ((100 + 0) * position_size_initial / (5/2)))
        (pyInt (min ((100:ℚ) * (3/100)) (100 * (15/1000)) / (5/2))) := by
  refine approved_count_is_min_of_caps 0 (5/2) 100 0 0 0 100 ?_
  have h13 : pyInt ((100 + (0:ℚ)) * position_size_initial / (5/2)) = 13 :=
    pyInt_eq_of_nonneg _ 13 (by norm_num)
      (by norm_num [position_size_initial]) (by norm_num [position_size_initial])
  have hr : pyInt (min ((100:ℚ) * (3/100)) (100 * (15/1000)) / (5/2)) = 0 :=
    pyInt_eq_of_nonneg _ 0 (by norm_num) (by norm_num) (by norm_num)
  simp only [calculate_position_size, h13, hr]
  norm_num [max_daily_loss]

/-- C3 counterexample: at account balance 7000 and option price 2.50 the
sizing call does **not** approve 84 contracts. -/
theorem sizing_7000_not_84_contracts :
    approvedContracts (calculate_position_size 0 (5/2) 7000) ≠ some 84 := by
  have hc : pyInt ((7000 + (0:ℚ)) * position_size_initial / (5/2)) = 924 :=
    pyInt_eq_of_nonneg _ 924 (by norm_num)
      (by norm_num [position_size_initial]) (by norm_num [position_size_initial])
  have hr : pyInt (min ((7000:ℚ) * (3/100)) (7000 * (15/1000)) / (5/2)) = 42 :=
    pyInt_eq_of_nonneg _ 42 (by norm_num) (by norm_num) (by norm_num)
  have hcalc : calculate_position_size 0 (5/2) 7000 = .ok (.approved 42 105 105 7000) := by
    simp only [calculate_position_size, hc, hr]
    norm_num [max_daily_loss]
  rw [hcalc]
  simp only [approvedContracts, Option.some.injEq]
  decide

/-- C3 (amended): at account balance 7000 and option price 2.50 (zero daily
P&L), sizing computes the capital-based count `int(7000·0.33/2.50) = 924`
(not 933: the code uses 0.33, not 1/3), caps risk at
`min(7000·0.03, 7000·0.015) = 7000·0.015 = 105` dollars — i.e. 1.5 %, the
lower end of the 1.5–3 % band — giving risk-based contracts
`int(105/2.50) = 42`, and approves `min(924, 42) = 42` contracts. -/
theorem sizing_7000_at_2_50_approves_42 :
    calculate_position_size 0 (5/2) 7000 = .ok (.approved 42 105 105 7000) ∧
    pyInt ((7000 + 0) * position_size_initial / (5/2)) = 924 ∧
    min ((7000:ℚ) * (3/100)) (7000 * (15/1000)) = 7000 * (15/1000) ∧
    pyInt ((7000 : ℚ) * (15/1000) / (5/2)) = 42 ∧
    (42 : ℤ) = min 924 42 := by
  have hc : pyInt ((7000 + (0:ℚ)) * position_size_initial / (5/2)) = 924 :=
    pyInt_eq_of_nonneg _ 924 (by norm_num)
      (by norm_num [position_size_initial]) (by norm_num [position_size_initial])
  have hr : pyInt (min ((7000:ℚ) * (3/100)) (7000 * (15/1000)) / (5/2)) = 42 :=
    pyInt_eq_of_nonneg _ 42 (by norm_num) (by norm_num) (by norm_num)
  refine ⟨?_, hc, by norm_num, ?_, by decide⟩
  · simp only [calculate_position_size, hc, hr]
    norm_num [max_daily_loss]
  · exact pyInt_eq_of_nonneg _ 42 (by norm_num) (by norm_num) (by norm_num)

/-- C10: `calculate_position_size` is total for positive option prices —
it returns a status dict for every account balance — while at option price 0
with the daily loss limit not reached it raises `ZeroDivisionError` from the
unguarded division. -/
theorem sizing_total_iff_positive_price (daily_pnl option_price account_balance : ℚ) :
    (0 < option_price →
      returnsResult (calculate_position_size daily_pnl option_price account_balance) = true) ∧
    (option_price = 0 → max_daily_loss < daily_pnl →
      calculate_position_size daily_pnl option_price account_balance =
        .error "ZeroDivisionError") := by
  constructor
  · intro hp
    simp only [calculate_position_size]
    split
    · rfl
    · rw [if_neg hp.ne']
      split
      · rfl
      · rfl
  · intro h0 hdp
    simp only [calculate_position_size]
    rw [if_neg (not_le.mpr hdp), if_pos h0]

/-- Witness for `sizing_total_iff_positive_price`: concrete instances of both
conjuncts (price 2.50 returns a dict; price 0 with zero daily P&L raises). -/
theorem sizing_total_iff_positive_price_w :
    returnsResult (calculate_position_size 0 (5/2) 7000) = true ∧
    calculate_position_size 0 0 7000 = .error "ZeroDivisionError" :=
  ⟨(sizing_total_iff_positive_price 0 (5/2) 7000).1 (by norm_num),
   (sizing_total_iff_positive_price 0 0 7000).2 rfl (by norm_num [max_daily_loss])⟩

/-! ## Theorems: overnight-bias classifier (C7) -/

/-- C7: whenever at least two overnight bars are stored and the current
bar's close is strictly above the previous bar's high (for a well-formed
candle, `close ≤ high`, and a positive previous high), the classifier
returns bias `calls`, bar type `2-up`, and confidence
`min(0.7 + scaled distance beyond the previous high, 1.0)`, which lies in
`(0.7, 1.0]`. -/
theorem two_up_close_gives_calls (overnight_bars : List Bar) (bar_data previous_bar : Bar)
    (hprev : overnight_bars.getD (overnight_bars.length - 2) default = previous_bar)
    (hlen : 2 ≤ overnight_bars.length)
    (hph : 0 < previous_bar.high)
    (hwf : bar_data.close ≤ bar_data.high)
    (hbreak : previous_bar.high < bar_data.close) :
    determine_overnight_bias overnight_bars bar_data =
      { bias := some "calls",
        confidence :=
          min (7/10 + ((bar_data.close - previous_bar.high) / previous_bar.high) * 10) 1,
        bar_type := "2-up" } ∧
    7/10 < (determine_overnight_bias overnight_bars bar_data).confidence ∧
    (determine_overnight_bias overnight_bars bar_data).confidence ≤ 1 := by
  have habs : |bar_data.close - previous_bar.high| = bar_data.close - previous_bar.high :=
    abs_of_pos (sub_pos.mpr hbreak)
  have heq : determine_overnight_bias overnight_bars bar_data =
      { bias := some "calls",
        confidence :=
          min (7/10 + ((bar_data.close - previous_bar.high) / previous_bar.high) * 10) 1,
        bar_type := "2-up" } := by
    unfold determine_overnight_bias
    rw [if_neg (by omega)]
    rw [hprev]
    rw [if_neg ?inside, if_pos hbreak, habs]
    case inside =>
      rintro ⟨hhi, -⟩
      exact absurd (lt_of_lt_of_le hbreak (le_trans hwf hhi)) (lt_irrefl _)
  have hpos : 0 < ((bar_data.close - previous_bar.high) / previous_bar.high) * 10 :=
    mul_pos (div_pos (sub_pos.mpr hbreak) hph) (by norm_num)
  refine ⟨heq, ?_, ?_⟩
  · rw [heq]
    exact lt_min (lt_add_of_pos_right _ hpos) (by norm_num)
  · rw [heq]
    exact min_le_right _ _

/-- Witness for `two_up_close_gives_calls` on the spec's own scenario:
previous bar high 240.80, current close 241.20. -/
theorem two_up_close_gives_calls_w :
    determine_overnight_bias
        [⟨0, 2408/10, 2395/10, 240, 0⟩, ⟨0, 24193/100, 24019/100, 2412/10, 0⟩]
        ⟨0, 24193/100, 24019/100, 2412/10, 0⟩ =
      { bias := some "calls",
        confidence :=
          min (7/10 + (((2412:ℚ)/10 - (⟨0, 2408/10, 2395/10, 240, (0:ℚ)⟩ : Bar).high) /
            (⟨0, 2408/10, 2395/10, 240, (0:ℚ)⟩ : Bar).high) * 10) 1,
        bar_type := "2-up" } ∧
    7/10 < (determine_overnight_bias
        [⟨0, 2408/10, 2395/10, 240, 0⟩, ⟨0, 24193/100, 24019/100, 2412/10, 0⟩]
        ⟨0, 24193/100, 24019/100, 2412/10, 0⟩).confidence ∧
    (determine_overnight_bias
        [⟨0, 2408/10, 2395/10, 240, 0⟩, ⟨0, 24193/100, 24019/100, 2412/10, 0⟩]
        ⟨0, 24193/100, 24019/100, 2412/10, 0⟩).confidence ≤ 1 :=
  two_up_close_gives_calls
    [⟨0, 2408/10, 2395/10, 240, 0⟩, ⟨0, 24193/100, 24019/100, 2412/10, 0⟩]
    ⟨0, 24193/100, 24019/100, 2412/10, 0⟩ ⟨0, 2408/10, 2395/10, 240, 0⟩
    rfl (by norm_num) (by norm_num) (by norm_num) (by norm_num)

end OvernightBiasStrategy

/-! ## Theorems: five-minute confirmation machine (C1, C8) -/

namespace FiveMinuteConfirmation

/-- The status component of a close-processing result. -/
def statusOf (r : Except String (State × CloseStatus)) : Option CloseStatus :=
  match r with
  | .ok (_, st) => some st
  | .error _ => none

/-- A pending-confirmation episode for calls: the 09:50 close broke
trigger high 241.93, confirmation is pending, and the next completed
5-minute candle closes at 242.50 — beyond the trigger level and above any
positive session VWAP and EMA20. -/
def pendingCallsState : State :=
  { trigger_high := some (24193/100), trigger_low := some (23950/100),
    confirmation_pending := true, confirmation_bias := some "calls",
    confirmation_trigger := some (24193/100), retest_count := 0, max_retests := 2,
    current_candle := some ⟨0, 242, 485/2, 241, 485/2, 1000, none⟩,
    five_min_candles := [] }

/-- C1 (code bug): with confirmation pending at trigger 241.93, the next
5-minute close at 242.50 satisfies every confirmation condition of the
claim (it remains beyond the trigger level, and is above session VWAP and
EMA20 — which the code never even consults: the VWAP comparand is
`candle.get('vwap', 0)` for a key that is never written, and no EMA20 check
exists), yet `_process_five_minute_close` returns status `trigger_break`,
not `confirmed`: the trigger-break branch is evaluated first and fires
again for any close beyond the unchanged trigger level, so the `confirmed`
status is unreachable for exactly the closes the claim describes. -/
theorem pending_break_returns_trigger_break_not_confirmed :
    statusOf (process_five_minute_close pendingCallsState "calls" 0) =
      some (.trigger_break "calls" (some (24193/100)) (485/2)) := by
  have hgt : ((24193:ℚ)/100) < 485/2 := by norm_num
  simp only [process_five_minute_close, pendingCallsState, check_trigger_break, statusOf]
  norm_num

/-- C8: while a retest episode is live, the retest count never exceeds the
configured maximum: starting from any state with `retest_count ≤ max_retests`,
(i) the count stays `≤ max_retests` after `_check_retest_opportunity`;
(ii) if the count has reached the maximum, the machine resets
`confirmation_pending`, `confirmation_bias`, `confirmation_trigger` and
`retest_count` back to the watching state; and (iii) below the maximum, a
tick whose price revisits the trigger level within ±0.1 % increments the
count by exactly one. -/
theorem retest_count_capped (s : State) (price : ℚ) (bias : String)
    (hinv : s.retest_count ≤ s.max_retests) :
    (check_retest_opportunity s price bias).1.retest_count ≤ s.max_retests ∧
    (s.max_retests ≤ s.retest_count →
      (check_retest_opportunity s price bias).1.confirmation_pending = false ∧
      (check_retest_opportunity s price bias).1.confirmation_bias = none ∧
      (check_retest_opportunity s price bias).1.confirmation_trigger = none ∧
      (check_retest_opportunity s price bias).1.retest_count = 0) ∧
    (∀ t : ℚ, s.retest_count < s.max_retests → s.confirmation_trigger = some t →
      (bias = "calls" ∨ bias = "puts") →
      t * (999/1000) ≤ price → price ≤ t * (1001/1000) →
      (check_retest_opportunity s price bias).1.retest_count = s.retest_count + 1) := by
  unfold check_retest_opportunity
  by_cases hge : s.retest_count ≥ s.max_retests
  · rw [if_pos hge]
    refine ⟨?_, fun _ => ⟨rfl, rfl, rfl, rfl⟩, fun t hlt _ _ _ _ => by omega⟩
    dsimp only
    omega
  · rw [if_neg hge]
    refine ⟨?_, fun hmax => by omega, ?_⟩
    · split
      · split
        · split
          · dsimp only
            omega
          · dsimp only
            omega
        · dsimp only
          omega
      · split
        · split
          · split
            · dsimp only
              omega
            · dsimp only
              omega
          · dsimp only
            omega
        · dsimp only
          omega
    · intro t hlt htrig hbias hlo hhi
      split
      · split
        · rename_i t' ht'
          rw [htrig] at ht'
          injection ht' with ht'
          subst ht'
          split
          · rfl
          · rename_i hband
            exact absurd ⟨hhi, hlo⟩ hband
        · rename_i ht'
          rw [htrig] at ht'
          exact Option.noConfusion ht'
      · split
        · split
          · rename_i t' ht'
            rw [htrig] at ht'
            injection ht' with ht'
            subst ht'
            split
            · rfl
            · rename_i hband
              exact absurd ⟨hlo, hhi⟩ hband
          · rename_i ht'
            rw [htrig] at ht'
            exact Option.noConfusion ht'
        · rename_i hcalls hputs
          rcases hbias with hb | hb
          · refine absurd ⟨hb, ?_⟩ hcalls
            rw [htrig]
            rfl
          · refine absurd ⟨hb, ?_⟩ hputs
            rw [htrig]
            rfl

/-- Witness for `retest_count_capped`: a pending-calls state with trigger
100, retest count 0 and max 2; a tick at price 100 (within ±0.1 % of the
trigger) increments the count to 1. -/
theorem retest_count_capped_w :
    (check_retest_opportunity
      { trigger_high := some 100, trigger_low := some 99,
        confirmation_pending := true, confirmation_bias := some "calls",
        confirmation_trigger := some 100, retest_count := 0, max_retests := 2,
        current_candle := none, five_min_candles := [] } 100 "calls").1.retest_count = 0 + 1 :=
  (retest_count_capped
      { trigger_high := some 100, trigger_low := some 99,
        confirmation_pending := true, confirmation_bias := some "calls",
        confirmation_trigger := some 100, retest_count := 0, max_retests := 2,
        current_candle := none, five_min_candles := [] } 100 "calls"
      (by decide)).2.2 100 (by decide) rfl (Or.inl rfl) (by norm_num) (by norm_num)

end FiveMinuteConfirmation

/-! ## Theorems: hard invalidation (C4, C5, C6) -/

namespace HardInvalidation

/-- Closed form of `_process_five_minute_close` for a calls position. -/
lemma process_calls_eq (s : State) (p tH tL : ℚ) :
    process_five_minute_close s "calls" p tH tL =
      if p ≤ tH then
        if 2 ≤ s.consecutive_closes_inside + 1 then
          (⟨s.consecutive_closes_inside + 1, 0, s.current_vwap, s.active_positions⟩,
           .hard_invalidation (.twoConsecutiveClosesInsideTrigger tH)
             (s.consecutive_closes_inside + 1))
        else if s.current_vwap = 0 then
          (⟨s.consecutive_closes_inside + 1, 0, s.current_vwap, s.active_positions⟩,
           .valid (s.consecutive_closes_inside + 1))
        else if p < s.current_vwap then
          (⟨0, 1, s.current_vwap, s.active_positions⟩,
           .vwap_invalidation (.closeBelowVWAP s.current_vwap) 1)
        else
          (⟨s.consecutive_closes_inside + 1, 0, s.current_vwap, s.active_positions⟩,
           .valid (s.consecutive_closes_inside + 1))
      else
        if s.current_vwap = 0 then
          (⟨0, s.consecutive_closes_across_vwap, s.current_vwap, s.active_positions⟩, .valid 0)
        else if p < s.current_vwap then
          (⟨0, s.consecutive_closes_across_vwap + 1, s.current_vwap, s.active_positions⟩,
           .vwap_invalidation (.closeBelowVWAP s.current_vwap)
             (s.consecutive_closes_across_vwap + 1))
        else (⟨0, 0, s.current_vwap, s.active_positions⟩, .valid 0) := by
  by_cases h1 : p ≤ tH
  · by_cases h2 : 2 ≤ s.consecutive_closes_inside + 1
    · simp [process_five_minute_close, check_trigger_invalidation, check_vwap_invalidation,
        max_consecutive_closes, vwap_invalidation_closes, h1, h2]
    · by_cases h3 : s.current_vwap = 0
      · simp [process_five_minute_close, check_trigger_invalidation, check_vwap_invalidation,
          max_consecutive_closes, vwap_invalidation_closes, h1, h2, h3]
      · by_cases h4 : p < s.current_vwap
        · simp [process_five_minute_close, check_trigger_invalidation, check_vwap_invalidation,
            max_consecutive_closes, vwap_invalidation_closes, h1, h2, h3, h4]
        · simp [process_five_minute_close, check_trigger_invalidation, check_vwap_invalidation,
            max_consecutive_closes, vwap_invalidation_closes, h1, h2, h3, h4]
  · by_cases h3 : s.current_vwap = 0
    · simp [process_five_minute_close, check_trigger_invalidation, check_vwap_invalidation,
        max_consecutive_closes, vwap_invalidation_closes, h1, h3]
    · by_cases h4 : p < s.current_vwap
      · simp [process_five_minute_close, check_trigger_invalidation, check_vwap_invalidation,
          max_consecutive_closes, vwap_invalidation_closes, h1, h3, h4, Nat.le_add_left]
      · simp [process_five_minute_close, check_trigger_invalidation, check_vwap_invalidation,
          max_consecutive_closes, vwap_invalidation_closes, h1, h3, h4]

/-- Closed form of `_process_five_minute_close` for a puts position. -/
lemma process_puts_eq (s : State) (p tH tL : ℚ) :
    process_five_minute_close s "puts" p tH tL =
      if tL ≤ p then
        if 2 ≤ s.consecutive_closes_inside + 1 then
          (⟨s.consecutive_closes_inside + 1, 0, s.current_vwap, s.active_positions⟩,
           .hard_invalidation (.twoConsecutiveClosesInsideTrigger tL)
             (s.consecutive_closes_inside + 1))
        else if s.current_vwap = 0 then
          (⟨s.consecutive_closes_inside + 1, 0, s.current_vwap, s.active_positions⟩,
           .valid (s.consecutive_closes_inside + 1))
        else if s.current_vwap < p then
          (⟨0, 1, s.current_vwap, s.active_positions⟩,
           .vwap_invalidation (.closeAboveVWAP s.current_vwap) 1)
        else
          (⟨s.consecutive_closes_inside + 1, 0, s.current_vwap, s.active_positions⟩,
           .valid (s.consecutive_closes_inside + 1))
      else
        if s.current_vwap = 0 then
          (⟨0, s.consecutive_closes_across_vwap, s.current_vwap, s.active_positions⟩, .valid 0)
        else if s.current_vwap < p then
          (⟨0, s.consecutive_closes_across_vwap + 1, s.current_vwap, s.active_positions⟩,
           .vwap_invalidation (.closeAboveVWAP s.current_vwap)
             (s.consecutive_closes_across_vwap + 1))
        else (⟨0, 0, s.current_vwap, s.active_positions⟩, .valid 0) := by
  by_cases h1 : tL ≤ p
  · by_cases h2 : 2 ≤ s.consecutive_closes_inside + 1
    · simp [process_five_minute_close, check_trigger_invalidation, check_vwap_invalidation,
        max_consecutive_closes, vwap_invalidation_closes, h1, h2]
    · by_cases h3 : s.current_vwap = 0
      · simp [process_five_minute_close, check_trigger_invalidation, check_vwap_invalidation,
          max_consecutive_closes, vwap_invalidation_closes, h1, h2, h3]
      · by_cases h4 : s.current_vwap < p
        · simp [process_five_minute_close, check_trigger_invalidation, check_vwap_invalidation,
            max_consecutive_closes, vwap_invalidation_closes, h1, h2, h3, h4]
        · simp [process_five_minute_close, check_trigger_invalidation, check_vwap_invalidation,
            max_consecutive_closes, vwap_invalidation_closes, h1, h2, h3, h4]
  · by_cases h3 : s.current_vwap = 0
    · simp [process_five_minute_close, check_trigger_invalidation, check_vwap_invalidation,
        max_consecutive_closes, vwap_invalidation_closes, h1, h3]
    · by_cases h4 : s.current_vwap < p
      · simp [process_five_minute_close, check_trigger_invalidation, check_vwap_invalidation,
          max_consecutive_closes, vwap_invalidation_closes, h1, h3, h4, Nat.le_add_left]
      · simp [process_five_minute_close, check_trigger_invalidation, check_vwap_invalidation,
          max_consecutive_closes, vwap_invalidation_closes, h1, h3, h4]

/-- Closed form of `_process_five_minute_close` for any other bias string:
nothing is touched. -/
lemma process_other_eq (s : State) (bias : String) (p tH tL : ℚ)
    (hc : ¬ (bias = "calls")) (hp : ¬ (bias = "puts")) :
    process_five_minute_close s bias p tH tL =
      (s, .valid s.consecutive_closes_inside) := by
  by_cases h3 : s.current_vwap = 0
  · simp [process_five_minute_close, check_trigger_invalidation, check_vwap_invalidation,
      hc, hp, h3]
  · simp [process_five_minute_close, check_trigger_invalidation, check_vwap_invalidation,
      hc, hp, h3]

/-- C4: for a calls position, `_check_trigger_invalidation` increments the
trigger-range counter on every close `≤ trigger_high` and resets it to 0 on
any close `> trigger_high` (symmetrically for puts with closes `≥ trigger_low`
resp. `< trigger_low`); and starting from a zero counter, two consecutive
closes back inside the trigger range — the first of them not VWAP-adverse —
make `_process_five_minute_close` return the hard-invalidation status with
the two-consecutive-closes-back-inside-trigger reason. -/
theorem two_closes_inside_trigger_hard_exit (s : State)
    (c1 c2 price trigger_high trigger_low : ℚ) :
    (price ≤ trigger_high →
      (check_trigger_invalidation s "calls" price trigger_high trigger_low).1.consecutive_closes_inside
        = s.consecutive_closes_inside + 1) ∧
    (trigger_high < price →
      (check_trigger_invalidation s "calls" price trigger_high trigger_low).1.consecutive_closes_inside
        = 0) ∧
    (trigger_low ≤ price →
      (check_trigger_invalidation s "puts" price trigger_high trigger_low).1.consecutive_closes_inside
        = s.consecutive_closes_inside + 1) ∧
    (price < trigger_low →
      (check_trigger_invalidation s "puts" price trigger_high trigger_low).1.consecutive_closes_inside
        = 0) ∧
    (s.consecutive_closes_inside = 0 → c1 ≤ trigger_high → c2 ≤ trigger_high →
      (s.current_vwap = 0 ∨ s.current_vwap ≤ c1) →
      (process_five_minute_close
          (process_five_minute_close s "calls" c1 trigger_high trigger_low).1
          "calls" c2 trigger_high trigger_low).2 =
        .hard_invalidation (.twoConsecutiveClosesInsideTrigger trigger_high) 2) := by
  refine ⟨?_, ?_, ?_, ?_, ?_⟩
  · intro h
    unfold check_trigger_invalidation
    rw [if_pos rfl, if_pos h]
    dsimp only
    split <;> rfl
  · intro h
    unfold check_trigger_invalidation
    rw [if_pos rfl, if_neg (not_le.mpr h)]
  · intro h
    unfold check_trigger_invalidation
    rw [if_neg (by simp), if_pos rfl, if_pos h]
    dsimp only
    split <;> rfl
  · intro h
    unfold check_trigger_invalidation
    rw [if_neg (by simp), if_pos rfl, if_neg (not_le.mpr h)]
  · intro hz h1 h2 hv
    have hstep1 : (process_five_minute_close s "calls" c1 trigger_high trigger_low).1 =
        ⟨1, 0, s.current_vwap, s.active_positions⟩ := by
      rw [process_calls_eq, if_pos h1, if_neg (by omega)]
      rcases hv with hv | hv
      · rw [if_pos hv]
        simp [hz]
      · by_cases h0 : s.current_vwap = 0
        · rw [if_pos h0]
          simp [hz]
        · rw [if_neg h0, if_neg (not_lt.mpr hv)]
          simp [hz]
    rw [hstep1, process_calls_eq, if_pos h2, if_pos (by simp)]

/-- Witness for `two_closes_inside_trigger_hard_exit` on the spec scenario:
calls position, trigger high 241.93, consecutive closes 241.50 and 241.70
(session VWAP 0, counters fresh) → hard exit with the
two-consecutive-closes-back-inside-trigger reason. -/
theorem two_closes_inside_trigger_hard_exit_w :
    (process_five_minute_close
        (process_five_minute_close initState "calls" (24150/100) (24193/100) (23950/100)).1
        "calls" (24170/100) (24193/100) (23950/100)).2 =
      .hard_invalidation (.twoConsecutiveClosesInsideTrigger (24193/100)) 2 :=
  (two_closes_inside_trigger_hard_exit initState (24150/100) (24170/100) 0
      (24193/100) (23950/100)).2.2.2.2 rfl (by norm_num) (by norm_num) (Or.inl rfl)

/-- C5 counterexample: calls position, session VWAP 241 (non-zero),
trigger-range counter already at 1 after a previous close back inside; the
next 5-minute close at 240.50 is below VWAP, yet the exit decision carries
the two-consecutive-closes-back-inside-trigger reason, not the
close-across-VWAP reason — the trigger-range check runs first and
pre-empts. -/
theorem vwap_close_preempted_by_trigger_reason :
    ((481:ℚ)/2) < (⟨1, 0, 241, []⟩ : State).current_vwap ∧
    (⟨1, 0, 241, []⟩ : State).current_vwap ≠ 0 ∧
    (process_five_minute_close ⟨1, 0, 241, []⟩ "calls" (481/2) (24193/100) (23950/100)).2 =
      .hard_invalidation (.twoConsecutiveClosesInsideTrigger (24193/100)) 2 ∧
    isVwapExit (process_five_minute_close ⟨1, 0, 241, []⟩ "calls" (481/2) (24193/100)
      (23950/100)).2 = false := by
  refine ⟨by norm_num, by norm_num, ?_, ?_⟩
  · rw [process_calls_eq, if_pos (by norm_num), if_pos (by simp)]
  · rw [process_calls_eq, if_pos (by norm_num), if_pos (by simp)]
    rfl

/-- C5 (amended): for a position with a non-zero session VWAP, a single
5-minute close on the wrong side of VWAP (below for calls, above for puts)
always produces an exit decision; its reason is the close-across-VWAP reason
provided the same close does not simultaneously complete two consecutive
closes back inside the trigger range (the trigger-range check runs first and
its reason takes precedence); and any close on the correct side of VWAP
leaves the VWAP counter at 0. -/
theorem single_vwap_adverse_close_exit (s : State) (price trigger_high trigger_low : ℚ)
    (hv : s.current_vwap ≠ 0) :
    (price < s.current_vwap →
      isExitStatus (process_five_minute_close s "calls" price trigger_high trigger_low).2
        = true) ∧
    (price < s.current_vwap →
      ¬ (price ≤ trigger_high ∧ 2 ≤ s.consecutive_closes_inside + 1) →
      ∃ n, (process_five_minute_close s "calls" price trigger_high trigger_low).2 =
        .vwap_invalidation (.closeBelowVWAP s.current_vwap) n) ∧
    (s.current_vwap ≤ price →
      (process_five_minute_close s "calls" price trigger_high
        trigger_low).1.consecutive_closes_across_vwap = 0) ∧
    (s.current_vwap < price →
      isExitStatus (process_five_minute_close s "puts" price trigger_high trigger_low).2
        = true) ∧
    (s.current_vwap < price →
      ¬ (trigger_low ≤ price ∧ 2 ≤ s.consecutive_closes_inside + 1) →
      ∃ n, (process_five_minute_close s "puts" price trigger_high trigger_low).2 =
        .vwap_invalidation (.closeAboveVWAP s.current_vwap) n) ∧
    (price ≤ s.current_vwap →
      (process_five_minute_close s "puts" price trigger_high
        trigger_low).1.consecutive_closes_across_vwap = 0) := by
  refine ⟨?_, ?_, ?_, ?_, ?_, ?_⟩
  · intro h4
    rw [process_calls_eq]
    by_cases h1 : price ≤ trigger_high
    · by_cases h2 : 2 ≤ s.consecutive_closes_inside + 1
      · rw [if_pos h1, if_pos h2]
        rfl
      · rw [if_pos h1, if_neg h2, if_neg hv, if_pos h4]
        rfl
    · rw [if_neg h1, if_neg hv, if_pos h4]
      rfl
  · intro h4 hnot
    rw [process_calls_eq]
    by_cases h1 : price ≤ trigger_high
    · have h2 : ¬ 2 ≤ s.consecutive_closes_inside + 1 := fun h2 => hnot ⟨h1, h2⟩
      rw [if_pos h1, if_neg h2, if_neg hv, if_pos h4]
      exact ⟨1, rfl⟩
    · rw [if_neg h1, if_neg hv, if_pos h4]
      exact ⟨s.consecutive_closes_across_vwap + 1, rfl⟩
  · intro h4
    rw [process_calls_eq]
    by_cases h1 : price ≤ trigger_high
    · by_cases h2 : 2 ≤ s.consecutive_closes_inside + 1
      · rw [if_pos h1, if_pos h2]
      · rw [if_pos h1, if_neg h2, if_neg hv, if_neg (not_lt.mpr h4)]
    · rw [if_neg h1, if_neg hv, if_neg (not_lt.mpr h4)]
  · intro h4
    rw [process_puts_eq]
    by_cases h1 : trigger_low ≤ price
    · by_cases h2 : 2 ≤ s.consecutive_closes_inside + 1
      · rw [if_pos h1, if_pos h2]
        rfl
      · rw [if_pos h1, if_neg h2, if_neg hv, if_pos h4]
        rfl
    · rw [if_neg h1, if_neg hv, if_pos h4]
      rfl
  · intro h4 hnot
    rw [process_puts_eq]
    by_cases h1 : trigger_low ≤ price
    · have h2 : ¬ 2 ≤ s.consecutive_closes_inside + 1 := fun h2 => hnot ⟨h1, h2⟩
      rw [if_pos h1, if_neg h2, if_neg hv, if_pos h4]
      exact ⟨1, rfl⟩
    · rw [if_neg h1, if_neg hv, if_pos h4]
      exact ⟨s.consecutive_closes_across_vwap + 1, rfl⟩
  · intro h4
    rw [process_puts_eq]
    by_cases h1 : trigger_low ≤ price
    · by_cases h2 : 2 ≤ s.consecutive_closes_inside + 1
      · rw [if_pos h1, if_pos h2]
      · rw [if_pos h1, if_neg h2, if_neg hv, if_neg (not_lt.mpr h4)]
    · rw [if_neg h1, if_neg hv, if_neg (not_lt.mpr h4)]

/-- Witness for `single_vwap_adverse_close_exit` on the spec scenario: calls
position, session VWAP 241, fresh counters; one close at 240.50 (below VWAP)
→ VWAP invalidation with the close-across-VWAP reason. -/
theorem single_vwap_adverse_close_exit_w :
    ∃ n, (process_five_minute_close ⟨0, 0, 241, []⟩ "calls" (481/2) (24193/100)
      (23950/100)).2 = .vwap_invalidation (.closeBelowVWAP 241) n :=
  (single_vwap_adverse_close_exit ⟨0, 0, 241, []⟩ (481/2) (24193/100) (23950/100)
    (by norm_num)).2.1 (by norm_num) (by norm_num)

/-- C6: the two adverse-streak counters are mutually exclusive.  If at most
one of them is non-zero before an update, the same holds after
`_process_five_minute_close` (for any bias, price, trigger levels and VWAP);
a close that increments one counter resets the other to 0; and
`add_position` / `reset_counters` zero both.  (`_check_real_time_invalidation`
reads no counter and writes no state at all — see
`check_real_time_invalidation`.) -/
theorem counters_mutually_exclusive_inv (s : State) (bias pbias : String)
    (price trigger_high trigger_low : ℚ)
    (hmx : countersMutex s) :
    countersMutex (process_five_minute_close s bias price trigger_high trigger_low).1 ∧
    (s.consecutive_closes_inside <
        (process_five_minute_close s bias price trigger_high
          trigger_low).1.consecutive_closes_inside →
      (process_five_minute_close s bias price trigger_high
        trigger_low).1.consecutive_closes_across_vwap = 0) ∧
    (s.consecutive_closes_across_vwap <
        (process_five_minute_close s bias price trigger_high
          trigger_low).1.consecutive_closes_across_vwap →
      (process_five_minute_close s bias price trigger_high
        trigger_low).1.consecutive_closes_inside = 0) ∧
    countersMutex (add_position s pbias) ∧
    countersMutex (reset_counters s) := by
  simp only [countersMutex] at hmx
  simp only [countersMutex, add_position, reset_counters]
  by_cases hc : bias = "calls"
  · subst hc
    rw [process_calls_eq]
    by_cases h1 : price ≤ trigger_high
    · by_cases h2 : 2 ≤ s.consecutive_closes_inside + 1
      · rw [if_pos h1, if_pos h2]
        refine ⟨?_, ?_, ?_, ?_, ?_⟩ <;> (dsimp only; intros; first | omega | simp)
      · rw [if_pos h1, if_neg h2]
        by_cases h3 : s.current_vwap = 0
        · rw [if_pos h3]
          refine ⟨?_, ?_, ?_, ?_, ?_⟩ <;> (dsimp only; intros; first | omega | simp)
        · by_cases h4 : price < s.current_vwap
          · rw [if_neg h3, if_pos h4]
            refine ⟨?_, ?_, ?_, ?_, ?_⟩ <;> (dsimp only; intros; first | omega | simp)
          · rw [if_neg h3, if_neg h4]
            refine ⟨?_, ?_, ?_, ?_, ?_⟩ <;> (dsimp only; intros; first | omega | simp)
    · rw [if_neg h1]
      by_cases h3 : s.current_vwap = 0
      · rw [if_pos h3]
        refine ⟨?_, ?_, ?_, ?_, ?_⟩ <;> (dsimp only; intros; first | omega | simp)
      · by_cases h4 : price < s.current_vwap
        · rw [if_neg h3, if_pos h4]
          refine ⟨?_, ?_, ?_, ?_, ?_⟩ <;> (dsimp only; intros; first | omega | simp)
        · rw [if_neg h3, if_neg h4]
          refine ⟨?_, ?_, ?_, ?_, ?_⟩ <;> (dsimp only; intros; first | omega | simp)
  · by_cases hp : bias = "puts"
    · subst hp
      rw [process_puts_eq]
      by_cases h1 : trigger_low ≤ price
      · by_cases h2 : 2 ≤ s.consecutive_closes_inside + 1
        · rw [if_pos h1, if_pos h2]
          refine ⟨?_, ?_, ?_, ?_, ?_⟩ <;> (dsimp only; intros; first | omega | simp)
        · rw [if_pos h1, if_neg h2]
          by_cases h3 : s.current_vwap = 0
          · rw [if_pos h3]
            refine ⟨?_, ?_, ?_, ?_, ?_⟩ <;> (dsimp only; intros; first | omega | simp)
          · by_cases h4 : s.current_vwap < price
            · rw [if_neg h3, if_pos h4]
              refine ⟨?_, ?_, ?_, ?_, ?_⟩ <;> (dsimp only; intros; first | omega | simp)
            · rw [if_neg h3, if_neg h4]
              refine ⟨?_, ?_, ?_, ?_, ?_⟩ <;> (dsimp only; intros; first | omega | simp)
      · rw [if_neg h1]
        by_cases h3 : s.current_vwap = 0
        · rw [if_pos h3]
          refine ⟨?_, ?_, ?_, ?_, ?_⟩ <;> (dsimp only; intros; first | omega | simp)
        · by_cases h4 : s.current_vwap < price
          · rw [if_neg h3, if_pos h4]
            refine ⟨?_, ?_, ?_, ?_, ?_⟩ <;> (dsimp only; intros; first | omega | simp)
          · rw [if_neg h3, if_neg h4]
            refine ⟨?_, ?_, ?_, ?_, ?_⟩ <;> (dsimp only; intros; first | omega | simp)
    · rw [process_other_eq s bias price trigger_high trigger_low hc hp]
      refine ⟨?_, ?_, ?_, ?_, ?_⟩ <;> (dsimp only; intros; first | omega | simp)

/-- Witness for `counters_mutually_exclusive_inv`: fresh state, calls bias,
close at 240 against trigger high 241 — the invariant holds afterwards. -/
theorem counters_mutually_exclusive_inv_w :
    countersMutex (process_five_minute_close initState "calls" 240 241 239).1 :=
  (counters_mutually_exclusive_inv initState "calls" "calls" 240 241 239
    (Or.inl rfl)).1

end HardInvalidation

/-! ## Theorems: time-stop exit (C9) -/

namespace IWM5VWAPExitMonitor

/-- C9: for every open position (non-zero entry price) and every tick
(non-zero current price) observed at or after the 15:55 ET hard time stop,
`should_exit` returns an exit decision, whatever the configured giveback
percentages, the VWAP, and the position's profit or loss. -/
theorem time_stop_forces_exit (max_giveback_pct tighten_giveback_pct : ℚ)
    (now_seconds : ℕ) (pd : PositionData) (md : MarketData)
    (hentry : pd.entry_price ≠ 0) (hprice : md.current_price ≠ 0)
    (htime : HARD_TIME_STOP_seconds ≤ now_seconds) :
    (should_exit max_giveback_pct tighten_giveback_pct now_seconds (some pd) md).1
      = true := by
  unfold should_exit
  dsimp only
  rw [if_neg (by simp [hentry, hprice])]
  split
  · rfl
  · split
    · rfl
    · split
      · rfl
      · rw [if_pos (by simp [should_force_exit]
                       omega)]

/-- Witness for `time_stop_forces_exit`: entry 10, tick price 10
(flat P&L), VWAP 0, at 15:55:00 ET (57300 s) → exit. -/
theorem time_stop_forces_exit_w :
    (should_exit 30 20 57300 (some ⟨10, 10⟩) ⟨10, 0⟩).1 = true :=
  time_stop_forces_exit 30 20 57300 ⟨10, 10⟩ ⟨10, 0⟩ (by norm_num) (by norm_num)
    (by decide)

end IWM5VWAPExitMonitor

end IWM
